import Mathlib

/-! Shallow embedding of the Nexus trading decision pipeline
    (backend/app/services: regime.py, regime_multi.py, risk.py,
    behavior.py, session.py, decision.py). All float quantities are
    modelled as rationals; the pointwise float functions np.log and
    np.sqrt are passed as explicit function parameters where they occur,
    since no claim depends on their values beyond being functions. -/

/-- Configuration thresholds. Modelled from the spec: the services read
`trend_slope_threshold`, `high_vol_percentile_threshold`,
`max_risk_per_trade_pct`, `max_trades_per_day` and
`cooldown_minutes_after_two_losses` from the settings object, but
`config.py` under src does not declare these fields; the spec lists them as
the explicit configuration struct (examples 0.00025, 0.80, 1.0). They are
modelled as free parameters of every component. -/
structure Settings where
  trend_slope_threshold : ℚ
  high_vol_percentile_threshold : ℚ
  max_risk_per_trade_pct : ℚ
  max_trades_per_day : ℕ
  cooldown_minutes_after_two_losses : ℚ

/-- The example values named in the spec: slope threshold 0.00025,
high-volatility percentile 0.80, max risk 1.0 percent, 10 trades per day,
60 cooldown minutes. -/
def specSettings : Settings :=
  { trend_slope_threshold := 1/4000
    high_vol_percentile_threshold := 4/5
    max_risk_per_trade_pct := 1
    max_trades_per_day := 10
    cooldown_minutes_after_two_losses := 60 }

/-- regime.py: RegimeResult dataclass. -/
structure RegimeResult where
  regime : String
  volatility_state : String
  slope : ℚ
  vol : ℚ

/-- risk.py: RiskResult dataclass. -/
structure RiskResult where
  final_risk_pct : ℚ
  position_size_usd : ℚ
  reasons : List String

/-- risk.py RiskService.compute: cap intended risk at the configured
maximum, cap again at 0.5 in high volatility, floor the stop distance at
0.05 percent, and size the position from the capped risk. -/
def RiskService.compute (cfg : Settings) (account_equity intended_risk_pct stop_distance_pct : ℚ)
    (volatility_state : String) : RiskResult :=
  let risk_pct := min intended_risk_pct cfg.max_risk_per_trade_pct
  let reasons := if cfg.max_risk_per_trade_pct < intended_risk_pct then
      ["Risk capped to beginner-safe limit."] else []
  let risk_pct2 := if volatility_state = "high" then min risk_pct (1/2) else risk_pct
  let reasons2 := reasons ++
      (if volatility_state = "high" then ["High volatility detected → risk reduced to 0.50%."] else [])
  let stop := max stop_distance_pct (1/20)
  { final_risk_pct := risk_pct2
    position_size_usd := account_equity * (risk_pct2 / 100) / (stop / 100)
    reasons := reasons2 }

/-- models.py: DailyStat row; timestamps are rational minutes. -/
structure DailyStat where
  trades_count : ℕ
  wins : ℕ
  losses : ℕ
  realized_pnl : ℚ
  consecutive_losses : ℕ
  cooldown_until : Option ℚ

/-- models.py column defaults: every counter 0, no cooldown. -/
def newDailyStat : DailyStat :=
  { trades_count := 0, wins := 0, losses := 0, realized_pnl := 0
    consecutive_losses := 0, cooldown_until := none }

/-- behavior.py: BehaviorResult dataclass. -/
structure BehaviorResult where
  allowed : Bool
  reasons : List String
  suggested_actions : List String
  cooldown_until : Option ℚ

/-- behavior.py BehaviorService.check: refuse while a cooldown is pending,
then refuse when the daily trade cap is reached, else allow. -/
def BehaviorService.check (cfg : Settings) (now : ℚ) (ds : DailyStat) : BehaviorResult :=
  match ds.cooldown_until with
  | some t =>
      if now < t then
        { allowed := false
          reasons := ["Cooldown active until cooldown_until."]
          suggested_actions := ["Wait out the cooldown. Review last two trades."]
          cooldown_until := some t }
      else if cfg.max_trades_per_day ≤ ds.trades_count then
        { allowed := false
          reasons := ["Max trades/day reached."]
          suggested_actions := ["Stop trading for today. Review performance."]
          cooldown_until := none }
      else { allowed := true, reasons := [], suggested_actions := [], cooldown_until := none }
  | none =>
      if cfg.max_trades_per_day ≤ ds.trades_count then
        { allowed := false
          reasons := ["Max trades/day reached."]
          suggested_actions := ["Stop trading for today. Review performance."]
          cooldown_until := none }
      else { allowed := true, reasons := [], suggested_actions := [], cooldown_until := none }

/-- behavior.py BehaviorService.update_on_trade_close: bump the counters,
track the loss streak, and start a cooldown after two consecutive losses. -/
def BehaviorService.update_on_trade_close (cfg : Settings) (now pnl : ℚ) (ds : DailyStat) : DailyStat :=
  let ds1 : DailyStat :=
    { ds with trades_count := ds.trades_count + 1, realized_pnl := ds.realized_pnl + pnl }
  let ds2 : DailyStat :=
    if 0 < pnl then { ds1 with wins := ds1.wins + 1, consecutive_losses := 0 }
    else { ds1 with losses := ds1.losses + 1, consecutive_losses := ds1.consecutive_losses + 1 }
  if 2 ≤ ds2.consecutive_losses then
    { ds2 with cooldown_until := some (now + cfg.cooldown_minutes_after_two_losses) }
  else ds2

/-- Python str.lower: lowercase the string character by character. -/
def pyLower (s : String) : String := ⟨s.data.map Char.toLower⟩

/-- decision.py DecisionService._strategy_fit_score: start at 1.0, subtract
0.35 when the lowercased strategy equals "breakout" and the regime string
equals "RANGE", subtract 0.15 in high volatility, subtract 0.10 in low
volatility, floor at 0. -/
def DecisionService.strategy_fit_score (regime volatility strategy : String) : ℚ × List String :=
  let hit1 := pyLower strategy = "breakout" ∧ regime = "RANGE"
  let score1 : ℚ := if hit1 then 1 - 35/100 else 1
  let reasons1 := if hit1 then ["Breakout strategy underperforms in range markets."] else []
  let score2 := if volatility = "high" then score1 - 15/100 else score1
  let reasons2 := reasons1 ++
      (if volatility = "high" then ["High volatility increases false signals."] else [])
  let score3 := if volatility = "low" then score2 - 10/100 else score2
  let reasons3 := reasons2 ++
      (if volatility = "low" then ["Low volatility reduces momentum follow-through."] else [])
  (max score3 0, reasons3)

/-- session.py: the session record returned by SessionService. -/
structure SessionInfo where
  name : String
  liquidity : String
  risk_multiplier : ℚ
  note : String

/-- session.py SessionService.detect as a function of the UTC hour. -/
def SessionService.detect (hour : ℕ) : SessionInfo :=
  if hour < 7 then
    ⟨"ASIA", "low", 7/10, "Lower volatility, prone to fake moves."⟩
  else if hour < 13 then
    ⟨"EU", "medium", 9/10, "Trend formation and structure building."⟩
  else if hour < 21 then
    ⟨"US", "high", 1, "Highest liquidity and strongest moves."⟩
  else
    ⟨"WEEKEND", "very low", 1/2, "Avoid trading unless exceptional setup."⟩

/-- Arithmetic mean used by the numpy calls (empty list gives 0 via
rational division by zero, a case no claim reaches). -/
def listMean (l : List ℚ) : ℚ := l.sum / l.length

/-- Sum of squared deviations from the mean. -/
def sqDevSum (l : List ℚ) : ℚ := (l.map (fun x => (x - listMean l)^2)).sum

/-- Population variance (np.std squares, ddof 0). -/
def popVar (l : List ℚ) : ℚ := sqDevSum l / l.length

/-- Sample variance (pandas rolling std squares, ddof 1). -/
def sampleVar (l : List ℚ) : ℚ := sqDevSum l / ((l.length : ℚ) - 1)

/-- All full windows of width w, in order: the rolling view after dropna. -/
def windows (w : ℕ) (l : List ℚ) : List (List ℚ) :=
  (List.range (l.length + 1 - w)).map (fun i => (l.drop i).take w)

/-- Insertion into a sorted list. -/
def insertSorted (x : ℚ) : List ℚ → List ℚ
  | [] => [x]
  | y :: ys => if x ≤ y then x :: y :: ys else y :: insertSorted x ys

/-- Insertion sort, the sorted view np.quantile takes of its input. -/
def sortQ (l : List ℚ) : List ℚ := l.foldr insertSorted []

/-- np.quantile with the default linear interpolation. -/
def quantile (l : List ℚ) (q : ℚ) : ℚ :=
  let s := sortQ l
  let n := s.length
  if n = 0 then 0 else
    let h : ℚ := q * ((n : ℚ) - 1)
    let i : ℕ := ⌊h⌋.toNat
    let lo := s.getD i 0
    let hi := s.getD (min (i+1) (n-1)) 0
    lo + (h - (i : ℚ)) * (hi - lo)

/-- regime.py RegimeService.classify. log and sqrt stand for np.log and
np.sqrt (np.std and rolling std are sqrt of the matching variance). -/
def RegimeService.classify (log sqrt : ℚ → ℚ) (cfg : Settings) (closes : List ℚ) : RegimeResult :=
  let logp := closes.map (fun c => log (c + 1/1000000000))
  let n := logp.length
  let window := min 120 n
  let y := logp.drop (n - window)
  let x := (List.range window).map (fun i => (i : ℚ))
  let xm := listMean x
  let ym := listMean y
  let slope := (List.zipWith (fun a b => (a - xm) * (b - ym)) x y).sum
      / ((x.map (fun a => (a - xm)^2)).sum + 1/1000000000)
  let rets := List.zipWith (fun a b => b - a) logp (logp.drop 1)
  let vol := if window ≤ rets.length then sqrt (popVar (rets.drop (rets.length - window)))
    else if rets.length ≠ 0 then sqrt (popVar rets) else 0
  let volatility_state :=
    if 60 < rets.length then
      let vols := (windows 30 rets).map (fun w => sqrt (sampleVar w))
      if 10 < vols.length then
        (if quantile vols cfg.high_vol_percentile_threshold ≤ vol then "high" else "low")
      else "low"
    else "low"
  let regime := if cfg.trend_slope_threshold ≤ |slope| then "trend" else "range"
  { regime := regime, volatility_state := volatility_state, slope := slope, vol := vol }

/-- regime_multi.py: MultiTFRegime dataclass (per_tf kept as the ordered
list of per-timeframe results). -/
structure MultiTFRegime where
  final_regime : String
  final_volatility : String
  confidence : ℚ
  per_tf : List RegimeResult

/-- np.clip for lo ≤ hi. -/
def clip (x lo hi : ℚ) : ℚ := max lo (min x hi)

/-- regime_multi.py MultiTimeframeRegimeService.combine: majority vote on
regime (ties to range), volatility high when at least two timeframes are
high, agreement-plus-slope confidence clipped to the unit interval. -/
def MultiTimeframeRegimeService.combine (per_tf : List RegimeResult) : MultiTFRegime :=
  let regimes := per_tf.map (fun r => r.regime)
  let vols := per_tf.map (fun r => r.volatility_state)
  let trend_votes := regimes.countP (fun x => x == "trend")
  let range_votes := regimes.length - trend_votes
  let final_regime := if range_votes < trend_votes then "trend" else "range"
  let high_vol_votes := vols.countP (fun x => x == "high")
  let final_vol := if 2 ≤ high_vol_votes then "high" else "low"
  let agree_regime : ℚ := (max trend_votes range_votes : ℕ) / (max 1 regimes.length : ℕ)
  let agree_vol : ℚ :=
    ((if final_vol = "high" then high_vol_votes else vols.length - high_vol_votes : ℕ) : ℚ)
      / (max 1 vols.length : ℕ)
  let slope_bonus := clip ((per_tf.map (fun r => |r.slope|)).sum / per_tf.length / (2/1000)) 0 1
  let confidence := clip (55/100 * agree_regime + 25/100 * agree_vol + 20/100 * slope_bonus) 0 1
  { final_regime := final_regime, final_volatility := final_vol
    confidence := confidence, per_tf := per_tf }

/-- decision.py: DecisionResult (market_regime holds the consensus regime
label; the source embeds the confidence into this display string, the
session fields stay at their None defaults). -/
structure DecisionResult where
  decision : String
  quality_score : ℚ
  risk_pct : ℚ
  position_size_usd : ℚ
  reasons : List String
  suggested_actions : List String
  market_regime : String
  volatility_state : String

/-- decision.py DecisionService.check_trade: behavior gate, multi-timeframe
regime, risk sizing, session multiplier on the risk percentage, then the
graded decision ladder. The candles arrive as a timeframe-keyed list and
the session record is the injected argument. -/
def DecisionService.check_trade (log sqrt : ℚ → ℚ) (cfg : Settings) (now : ℚ) (ds : DailyStat)
    (candles_by_tf : List (String × List ℚ)) (strategy : String)
    (account_equity intended_risk_pct stop_distance_pct : ℚ)
    (session : SessionInfo) : DecisionResult :=
  let beh := BehaviorService.check cfg now ds
  let per_tf := candles_by_tf.map (fun p => RegimeService.classify log sqrt cfg p.2)
  let multi := MultiTimeframeRegimeService.combine per_tf
  let risk := RiskService.compute cfg account_equity intended_risk_pct stop_distance_pct
      multi.final_volatility
  let risk_pct := risk.final_risk_pct * session.risk_multiplier
  if beh.allowed = false then
    { decision := "BLOCK", quality_score := 0, risk_pct := risk_pct
      position_size_usd := risk.position_size_usd
      reasons := beh.reasons ++ risk.reasons
      suggested_actions := beh.suggested_actions ++ ["Switch to paper review mode."]
      market_regime := multi.final_regime, volatility_state := multi.final_volatility }
  else
    let fit := DecisionService.strategy_fit_score multi.final_regime multi.final_volatility strategy
    let quality_score := fit.1
    let reasons := fit.2 ++ risk.reasons
    let reasons2 := if multi.confidence < 45/100 then
        reasons ++ ["Low regime confidence → conditions unclear."] else reasons
    if multi.confidence < 45/100 ∧ quality_score < 55/100 then
      { decision := "BLOCK", quality_score := quality_score, risk_pct := risk_pct
        position_size_usd := risk.position_size_usd
        reasons := reasons2
        suggested_actions := ["Wait for clearer market structure.",
          "Switch timeframe to 15m for confirmation."]
        market_regime := multi.final_regime, volatility_state := multi.final_volatility }
    else
      let suggested0 := if multi.confidence < 45/100 then
          ["Proceed only with extra confirmation; consider reducing size."] else []
      if quality_score < 35/100 then
        { decision := "BLOCK", quality_score := quality_score, risk_pct := risk_pct
          position_size_usd := risk.position_size_usd
          reasons := reasons2 ++ ["Trade quality score too low."]
          suggested_actions := ["Wait for a clearer setup.",
            "Consider changing strategy for the current regime."]
          market_regime := multi.final_regime, volatility_state := multi.final_volatility }
      else
        let decision := if quality_score < 55/100 then "WARN" else "ALLOW"
        let suggested1 := suggested0 ++
            (if quality_score < 55/100 then ["Lower position size or wait for confirmation."] else [])
        let suggested2 := suggested1 ++
            (if multi.final_volatility = "high" then
              ["Use wider stops or smaller size; expect faster swings."] else [])
        let suggested3 := if suggested2 = [] then
            ["Proceed only if your setup matches your plan and stop is respected."] else suggested2
        { decision := decision, quality_score := quality_score, risk_pct := risk_pct
          position_size_usd := risk.position_size_usd
          reasons := reasons2
          suggested_actions := suggested3
          market_regime := multi.final_regime, volatility_state := multi.final_volatility }

/-! Helper lemmas about the numeric helpers on constant lists. -/

theorem listMean_replicate (n : ℕ) (a : ℚ) (hn : 0 < n) :
    listMean (List.replicate n a) = a := by
  rw [listMean, List.sum_replicate, nsmul_eq_mul, List.length_replicate]
  have : (n : ℚ) ≠ 0 := Nat.cast_ne_zero.mpr hn.ne'
  field_simp

theorem sqDevSum_replicate (n : ℕ) (a : ℚ) : sqDevSum (List.replicate n a) = 0 := by
  rcases Nat.eq_zero_or_pos n with h | h
  · subst h; rfl
  · rw [sqDevSum, listMean_replicate n a h, List.map_replicate]
    simp [List.sum_replicate]

theorem popVar_replicate (n : ℕ) (a : ℚ) : popVar (List.replicate n a) = 0 := by
  rw [popVar, sqDevSum_replicate, zero_div]

theorem sampleVar_replicate (n : ℕ) (a : ℚ) : sampleVar (List.replicate n a) = 0 := by
  rw [sampleVar, sqDevSum_replicate, zero_div]

theorem insertSorted_replicate (k : ℕ) (a : ℚ) :
    insertSorted a (List.replicate k a) = List.replicate (k + 1) a := by
  induction k with
  | zero => rfl
  | succ k _ =>
    rw [List.replicate_succ, insertSorted, if_pos le_rfl, ← List.replicate_succ,
      ← List.replicate_succ]

theorem sortQ_replicate (n : ℕ) (a : ℚ) :
    sortQ (List.replicate n a) = List.replicate n a := by
  induction n with
  | zero => rfl
  | succ n ih =>
    have : sortQ (List.replicate (n + 1) a) = insertSorted a (sortQ (List.replicate n a)) := by
      rw [List.replicate_succ]; rfl
    rw [this, ih, insertSorted_replicate]

theorem getD_replicate (n i : ℕ) (a : ℚ) (h : i < n) :
    (List.replicate n a).getD i 0 = a := by
  simp [List.getD, List.getElem?_replicate, h]

theorem quantile_replicate (n : ℕ) (a q : ℚ) (hn : 0 < n) (h0 : 0 ≤ q) (h1 : q ≤ 1) :
    quantile (List.replicate n a) q = a := by
  rw [quantile, sortQ_replicate]
  simp only [List.length_replicate]
  rw [if_neg hn.ne']
  have hfl : (⌊q * ((n : ℚ) - 1)⌋).toNat < n := by
    have hcast : ((n : ℚ) - 1) = ((n - 1 : ℕ) : ℚ) := by
      push_cast [hn]; ring
    have h2 : q * ((n : ℚ) - 1) ≤ ((n - 1 : ℕ) : ℚ) := by
      rw [← hcast]
      have : 0 ≤ (n : ℚ) - 1 := by
        have : (1 : ℚ) ≤ n := by exact_mod_cast hn
        linarith
      nlinarith
    have h3 : ⌊q * ((n : ℚ) - 1)⌋ ≤ (n - 1 : ℕ) := by
      have := Int.floor_le_floor h2
      rwa [Int.floor_natCast] at this
    have h4 : (⌊q * ((n : ℚ) - 1)⌋).toNat ≤ n - 1 := by
      omega
    omega
  have hmin : min ((⌊q * ((n : ℚ) - 1)⌋).toNat + 1) (n - 1) < n := by omega
  rw [getD_replicate _ _ _ hfl, getD_replicate _ _ _ hmin]
  ring

theorem zipWith_right_const_sum_zero (g : ℚ → ℚ → ℚ) (c : ℚ) (hg : ∀ a, g a c = 0) :
    ∀ (l : List ℚ) (n : ℕ), (List.zipWith g l (List.replicate n c)).sum = 0
  | [], _ => by simp
  | _ :: _, 0 => by simp
  | a :: l, n + 1 => by
    rw [List.replicate_succ, List.zipWith_cons_cons, List.sum_cons, hg,
      zipWith_right_const_sum_zero g c hg l n, add_zero]

theorem windows_replicate : windows 30 (List.replicate 199 (0 : ℚ)) =
    List.replicate 170 (List.replicate 30 (0 : ℚ)) := by
  rw [windows, List.length_replicate]
  have h1 : ∀ i ∈ List.range (199 + 1 - 30),
      ((List.replicate 199 (0 : ℚ)).drop i).take 30 = List.replicate 30 (0 : ℚ) := by
    intro i hi
    rw [List.mem_range] at hi
    rw [List.drop_replicate, List.take_replicate]
    congr 1
    omega
  rw [List.map_congr_left h1, List.map_const', List.length_range]

/-- The regime classifier on a flat series of 200 identical closes: the
slope is exactly 0 (hence regime range for any positive threshold), every
return is 0, the current volatility and the percentile threshold are both
the same value, and the comparison vol >= threshold therefore holds, so
the volatility state is high. -/
theorem classify_replicate (log sqrt : ℚ → ℚ) (cfg : Settings) (c : ℚ)
    (hthr : 0 < cfg.trend_slope_threshold)
    (hq0 : 0 ≤ cfg.high_vol_percentile_threshold)
    (hq1 : cfg.high_vol_percentile_threshold ≤ 1) :
    RegimeService.classify log sqrt cfg (List.replicate 200 c) =
      { regime := "range", volatility_state := "high", slope := 0, vol := sqrt 0 } := by
  have hmap : (List.replicate 200 c).map (fun x => log (x + 1/1000000000)) =
      List.replicate 200 (log (c + 1/1000000000)) := by rw [List.map_replicate]
  simp only [RegimeService.classify, hmap, List.length_replicate]
  have hwin : min 120 200 = 120 := by norm_num
  rw [hwin]
  have hdrop : (List.replicate 200 (log (c + 1/1000000000))).drop (200 - 120) =
      List.replicate 120 (log (c + 1/1000000000)) := by
    rw [List.drop_replicate]
  rw [hdrop]
  have hym : listMean (List.replicate 120 (log (c + 1/1000000000))) =
      log (c + 1/1000000000) := listMean_replicate _ _ (by norm_num)
  rw [hym]
  have hnum : (List.zipWith
      (fun a b => (a - listMean ((List.range 120).map (fun i => (i : ℚ)))) *
        (b - log (c + 1/1000000000)))
      ((List.range 120).map (fun i => (i : ℚ)))
      (List.replicate 120 (log (c + 1/1000000000)))).sum = 0 := by
    exact zipWith_right_const_sum_zero _ _ (fun a => by ring) _ _
  rw [hnum, zero_div]
  have hrets : List.zipWith (fun a b => b - a)
      (List.replicate 200 (log (c + 1/1000000000)))
      ((List.replicate 200 (log (c + 1/1000000000))).drop 1) =
      List.replicate 199 (0 : ℚ) := by
    rw [List.drop_replicate, List.zipWith_replicate]
    norm_num
  rw [hrets]
  rw [List.length_replicate]
  have h120 : (if 120 ≤ 199 then sqrt (popVar ((List.replicate 199 (0:ℚ)).drop (199 - 120)))
      else if 199 ≠ 0 then sqrt (popVar (List.replicate 199 (0:ℚ))) else 0) =
      sqrt 0 := by
    rw [if_pos (by norm_num)]
    rw [List.drop_replicate]
    rw [popVar_replicate]
  rw [h120]
  rw [if_pos (by norm_num : (60:ℕ) < 199)]
  rw [windows_replicate, List.map_replicate, sampleVar_replicate, List.length_replicate]
  rw [if_pos (by norm_num : (10:ℕ) < 170)]
  rw [quantile_replicate 170 (sqrt 0) cfg.high_vol_percentile_threshold (by norm_num) hq0 hq1]
  rw [if_pos le_rfl]
  rw [abs_zero, if_neg (not_le.mpr hthr)]

/-- C1: the fit scorer run on the classifier regime label "range" (with low
volatility and strategy "breakout") returns 0.90 with a single deduction:
the breakout branch compares the regime against the uppercase string
"RANGE" that the classifier never produces, so the claimed 0.55 with two
deductions is only obtained for that uppercase spelling. -/
theorem c1_breakout_fit_eval :
    DecisionService.strategy_fit_score "range" "low" "breakout" =
      (9/10, ["Low volatility reduces momentum follow-through."]) ∧
    DecisionService.strategy_fit_score "RANGE" "low" "breakout" =
      (11/20, ["Breakout strategy underperforms in range markets.",
        "Low volatility reduces momentum follow-through."]) := by
  have hA : ¬ (pyLower "breakout" = "breakout" ∧ ("range" : String) = "RANGE") := by decide
  have hB : pyLower "breakout" = "breakout" ∧ ("RANGE" : String) = "RANGE" := by decide
  have hP : pyLower "breakout" = "breakout" := by decide
  have hH : ¬ (("low" : String) = "high") := by decide
  have hL : ("low" : String) = "low" := rfl
  constructor
  · simp only [DecisionService.strategy_fit_score, if_neg hA, if_neg hH, if_pos hL]
    rw [max_eq_left (by norm_num)]
    norm_num
  · simp only [DecisionService.strategy_fit_score, if_pos hB, if_pos hP, if_neg hH, if_pos hL]
    rw [max_eq_left (by norm_num [hP])]
    norm_num [hP]

/-- C2 counterexample: on 200 identical closes of 100 under the spec
example configuration, the classifier reports regime range but volatility
high, not low. -/
theorem c2_flat_series_counterexample :
    (RegimeService.classify (fun _ => 0) (fun _ => 0) specSettings
        (List.replicate 200 100)).regime = "range" ∧
    (RegimeService.classify (fun _ => 0) (fun _ => 0) specSettings
        (List.replicate 200 100)).volatility_state ≠ "low" ∧
    (RegimeService.classify (fun _ => 0) (fun _ => 0) specSettings
        (List.replicate 200 100)).volatility_state = "high" := by
  have h := classify_replicate (fun _ => 0) (fun _ => 0) specSettings 100
    (by norm_num [specSettings]) (by norm_num [specSettings]) (by norm_num [specSettings])
  rw [h]
  refine ⟨rfl, by decide, rfl⟩

/-- C2 amended: for any candle series of 200 identical closes, any log and
sqrt functions, any positive trend-slope threshold and any percentile in
the unit interval, the classifier returns regime range and volatility
high, because the current volatility equals the percentile threshold and
the comparison used is vol >= threshold. -/
theorem c2_flat_series_range_high (log sqrt : ℚ → ℚ) (cfg : Settings) (c : ℚ)
    (hthr : 0 < cfg.trend_slope_threshold)
    (hq0 : 0 ≤ cfg.high_vol_percentile_threshold)
    (hq1 : cfg.high_vol_percentile_threshold ≤ 1) :
    (RegimeService.classify log sqrt cfg (List.replicate 200 c)).regime = "range" ∧
    (RegimeService.classify log sqrt cfg (List.replicate 200 c)).volatility_state = "high" := by
  rw [classify_replicate log sqrt cfg c hthr hq0 hq1]
  exact ⟨rfl, rfl⟩

/-- C2 witness: the amended theorem applied at log = sqrt = the zero
function, close 100, and the spec example configuration. -/
theorem c2_flat_series_range_high_witness :
    (RegimeService.classify (fun _ => (0:ℚ)) (fun _ => (0:ℚ)) specSettings
        (List.replicate 200 50)).regime = "range" ∧
    (RegimeService.classify (fun _ => (0:ℚ)) (fun _ => (0:ℚ)) specSettings
        (List.replicate 200 50)).volatility_state = "high" :=
  c2_flat_series_range_high (fun _ => 0) (fun _ => 0) specSettings 50
    (by norm_num [specSettings]) (by norm_num [specSettings]) (by norm_num [specSettings])

/-- C5: starting from a fresh daily record, two consecutive losing closes
set cooldown_until to the second close time plus the configured cooldown,
a check at that same instant is refused and carries that cooldown_until,
and a subsequent winning close resets consecutive_losses to 0. -/
theorem c5_loss_streak_cooldown (cfg : Settings) (t1 t2 t3 pnl1 pnl2 pnl3 : ℚ)
    (h1 : pnl1 ≤ 0) (h2 : pnl2 ≤ 0) (h3 : 0 < pnl3)
    (hc : 0 < cfg.cooldown_minutes_after_two_losses) :
    (BehaviorService.update_on_trade_close cfg t2 pnl2
        (BehaviorService.update_on_trade_close cfg t1 pnl1 newDailyStat)).cooldown_until =
      some (t2 + cfg.cooldown_minutes_after_two_losses) ∧
    (BehaviorService.check cfg t2 (BehaviorService.update_on_trade_close cfg t2 pnl2
        (BehaviorService.update_on_trade_close cfg t1 pnl1 newDailyStat))).allowed = false ∧
    (BehaviorService.check cfg t2 (BehaviorService.update_on_trade_close cfg t2 pnl2
        (BehaviorService.update_on_trade_close cfg t1 pnl1 newDailyStat))).cooldown_until =
      some (t2 + cfg.cooldown_minutes_after_two_losses) ∧
    (BehaviorService.update_on_trade_close cfg t3 pnl3
        (BehaviorService.update_on_trade_close cfg t2 pnl2
          (BehaviorService.update_on_trade_close cfg t1 pnl1 newDailyStat))).consecutive_losses =
      0 := by
  have hnp1 : ¬ (0 < pnl1) := not_lt.mpr h1
  have hnp2 : ¬ (0 < pnl2) := not_lt.mpr h2
  have hds1 : BehaviorService.update_on_trade_close cfg t1 pnl1 newDailyStat =
      ⟨1, 0, 1, pnl1, 1, none⟩ := by
    simp [BehaviorService.update_on_trade_close, newDailyStat, hnp1]
  have hds2 : BehaviorService.update_on_trade_close cfg t2 pnl2
      (⟨1, 0, 1, pnl1, 1, none⟩ : DailyStat) =
      ⟨2, 0, 2, pnl1 + pnl2, 2, some (t2 + cfg.cooldown_minutes_after_two_losses)⟩ := by
    simp [BehaviorService.update_on_trade_close, hnp2]
  rw [hds1, hds2]
  have hlt : t2 < t2 + cfg.cooldown_minutes_after_two_losses := by linarith
  refine ⟨rfl, ?_, ?_, ?_⟩
  · simp [BehaviorService.check, hlt]
  · simp [BehaviorService.check, hlt]
  · simp [BehaviorService.update_on_trade_close, h3]

/-- C5 witness: the theorem at the spec example configuration, all closes
at time 0, losses of one unit and a win of one unit. -/
theorem c5_loss_streak_cooldown_witness :
    (BehaviorService.update_on_trade_close specSettings 0 (-1)
        (BehaviorService.update_on_trade_close specSettings 0 (-1) newDailyStat)).cooldown_until =
      some (0 + specSettings.cooldown_minutes_after_two_losses) ∧
    (BehaviorService.check specSettings 0 (BehaviorService.update_on_trade_close specSettings 0 (-1)
        (BehaviorService.update_on_trade_close specSettings 0 (-1) newDailyStat))).allowed = false ∧
    (BehaviorService.check specSettings 0 (BehaviorService.update_on_trade_close specSettings 0 (-1)
        (BehaviorService.update_on_trade_close specSettings 0 (-1) newDailyStat))).cooldown_until =
      some (0 + specSettings.cooldown_minutes_after_two_losses) ∧
    (BehaviorService.update_on_trade_close specSettings 0 1
        (BehaviorService.update_on_trade_close specSettings 0 (-1)
          (BehaviorService.update_on_trade_close specSettings 0 (-1) newDailyStat))).consecutive_losses =
      0 :=
  c5_loss_streak_cooldown specSettings 0 0 0 (-1) (-1) 1
    (by norm_num) (by norm_num) (by norm_num) (by norm_num [specSettings])

/-- C10: the invariant trades_count = wins + losses holds for the freshly
created daily record and is preserved by every record_close update, which
bumps trades_count by one and exactly one of wins or losses by one. -/
theorem c10_daily_stat_invariant (cfg : Settings) (now pnl : ℚ) (ds : DailyStat)
    (h : ds.trades_count = ds.wins + ds.losses) :
    newDailyStat.trades_count = newDailyStat.wins + newDailyStat.losses ∧
    (BehaviorService.update_on_trade_close cfg now pnl ds).trades_count =
      (BehaviorService.update_on_trade_close cfg now pnl ds).wins +
        (BehaviorService.update_on_trade_close cfg now pnl ds).losses ∧
    (BehaviorService.update_on_trade_close cfg now pnl ds).trades_count =
      ds.trades_count + 1 ∧
    ((BehaviorService.update_on_trade_close cfg now pnl ds).wins = ds.wins + 1 ∧
        (BehaviorService.update_on_trade_close cfg now pnl ds).losses = ds.losses ∨
      (BehaviorService.update_on_trade_close cfg now pnl ds).wins = ds.wins ∧
        (BehaviorService.update_on_trade_close cfg now pnl ds).losses = ds.losses + 1) := by
  refine ⟨rfl, ?_⟩
  by_cases hp : 0 < pnl
  · simp only [BehaviorService.update_on_trade_close, if_pos hp]
    split_ifs <;> simp <;> omega
  · simp only [BehaviorService.update_on_trade_close, if_neg hp]
    split_ifs <;> simp <;> omega

/-- C10 witness: the update theorem at a concrete losing close on the
fresh record. -/
theorem c10_daily_stat_invariant_witness :
    newDailyStat.trades_count = newDailyStat.wins + newDailyStat.losses ∧
    (BehaviorService.update_on_trade_close specSettings 0 (-2) newDailyStat).trades_count =
      (BehaviorService.update_on_trade_close specSettings 0 (-2) newDailyStat).wins +
        (BehaviorService.update_on_trade_close specSettings 0 (-2) newDailyStat).losses ∧
    (BehaviorService.update_on_trade_close specSettings 0 (-2) newDailyStat).trades_count =
      newDailyStat.trades_count + 1 ∧
    ((BehaviorService.update_on_trade_close specSettings 0 (-2) newDailyStat).wins =
          newDailyStat.wins + 1 ∧
        (BehaviorService.update_on_trade_close specSettings 0 (-2) newDailyStat).losses =
          newDailyStat.losses ∨
      (BehaviorService.update_on_trade_close specSettings 0 (-2) newDailyStat).wins =
          newDailyStat.wins ∧
        (BehaviorService.update_on_trade_close specSettings 0 (-2) newDailyStat).losses =
          newDailyStat.losses + 1) :=
  c10_daily_stat_invariant specSettings 0 (-2) newDailyStat rfl

/-- C7: with account equity, intended risk and the configured cap all
nonnegative, the position size returned by the risk sizer never increases
when the stop distance increases. -/
theorem c7_position_size_antitone (cfg : Settings) (equity intended s1 s2 : ℚ) (vol : String)
    (he : 0 ≤ equity) (hi : 0 ≤ intended) (hm : 0 ≤ cfg.max_risk_per_trade_pct)
    (hs : s1 ≤ s2) :
    (RiskService.compute cfg equity intended s2 vol).position_size_usd ≤
      (RiskService.compute cfg equity intended s1 vol).position_size_usd := by
  simp only [RiskService.compute]
  have hr : 0 ≤ (if vol = "high" then min (min intended cfg.max_risk_per_trade_pct) (1/2)
      else min intended cfg.max_risk_per_trade_pct) := by
    split_ifs
    · exact le_min (le_min hi hm) (by norm_num)
    · exact le_min hi hm
  have hnum : 0 ≤ equity * ((if vol = "high" then min (min intended cfg.max_risk_per_trade_pct) (1/2)
      else min intended cfg.max_risk_per_trade_pct) / 100) :=
    mul_nonneg he (div_nonneg hr (by norm_num))
  have h1 : (0 : ℚ) < max s1 (1/20) / 100 := by
    apply div_pos _ (by norm_num)
    exact lt_max_of_lt_right (by norm_num)
  have h2 : max s1 (1/20) / 100 ≤ max s2 (1/20) / 100 := by
    apply div_le_div_of_nonneg_right _ (by norm_num)
    exact max_le_max hs le_rfl
  exact div_le_div_of_nonneg_left hnum h1 h2

/-- C7 witness: the antitonicity theorem at the spec example scenario
(equity 10000, intended risk 2, stops 1 and 2, low volatility). -/
theorem c7_position_size_antitone_witness :
    (RiskService.compute specSettings 10000 2 2 "low").position_size_usd ≤
      (RiskService.compute specSettings 10000 2 1 "low").position_size_usd :=
  c7_position_size_antitone specSettings 10000 2 1 2 "low"
    (by norm_num) (by norm_num) (by norm_num [specSettings]) (by norm_num)

/-- C8: the aggregator picks trend exactly when the trend votes are a
strict majority, so any tie (including two timeframes split between trend
and range) resolves to range. -/
theorem c8_majority_vote_tiebreak (l : List RegimeResult) (a b : RegimeResult)
    (ha : a.regime = "trend") (hb : b.regime = "range") :
    ((MultiTimeframeRegimeService.combine l).final_regime = "range" ↔
      ¬ (l.length < 2 * (l.map (fun r => r.regime)).countP (fun x => x == "trend"))) ∧
    (MultiTimeframeRegimeService.combine [a, b]).final_regime = "range" := by
  constructor
  · have ht : (l.map (fun r => r.regime)).countP (fun x => x == "trend") ≤ l.length := by
      calc (l.map (fun r => r.regime)).countP (fun x => x == "trend")
          ≤ (l.map (fun r => r.regime)).length := List.countP_le_length _
        _ = l.length := List.length_map _ _
    simp only [MultiTimeframeRegimeService.combine, List.length_map]
    split_ifs with h
    · constructor
      · intro he; exact absurd he (by decide)
      · intro hn; exact absurd (by omega) hn
    · constructor
      · intro _; omega
      · intro _; rfl
  · simp only [MultiTimeframeRegimeService.combine, List.map_cons, List.map_nil, ha, hb,
      List.length_cons, List.length_nil]
    rw [if_neg]
    decide

/-- C8 witness: the theorem at two concrete timeframe results, one trend
and one range. -/
theorem c8_majority_vote_tiebreak_witness :
    ((MultiTimeframeRegimeService.combine
        [⟨"trend", "low", 0, 0⟩, ⟨"range", "low", 0, 0⟩]).final_regime = "range" ↔
      ¬ (([(⟨"trend", "low", 0, 0⟩ : RegimeResult), ⟨"range", "low", 0, 0⟩]).length <
        2 * (([(⟨"trend", "low", 0, 0⟩ : RegimeResult), ⟨"range", "low", 0, 0⟩].map
          (fun r => r.regime)).countP (fun x => x == "trend")))) ∧
    (MultiTimeframeRegimeService.combine
        [⟨"trend", "low", 0, 0⟩, ⟨"range", "low", 0, 0⟩]).final_regime = "range" :=
  c8_majority_vote_tiebreak [⟨"trend", "low", 0, 0⟩, ⟨"range", "low", 0, 0⟩]
    ⟨"trend", "low", 0, 0⟩ ⟨"range", "low", 0, 0⟩ rfl rfl

/-- Every branch of check_trade carries the same risk percentage (the
sizer output times the session multiplier) and the same position size
(the sizer output, untouched by the multiplier). -/
theorem check_trade_risk_fields (log sqrt : ℚ → ℚ) (cfg : Settings) (now : ℚ) (ds : DailyStat)
    (candles_by_tf : List (String × List ℚ)) (strategy : String)
    (equity intended stop : ℚ) (session : SessionInfo) :
    (DecisionService.check_trade log sqrt cfg now ds candles_by_tf strategy
        equity intended stop session).risk_pct =
      (RiskService.compute cfg equity intended stop
          (MultiTimeframeRegimeService.combine (candles_by_tf.map
            (fun p => RegimeService.classify log sqrt cfg p.2))).final_volatility).final_risk_pct *
        session.risk_multiplier ∧
    (DecisionService.check_trade log sqrt cfg now ds candles_by_tf strategy
        equity intended stop session).position_size_usd =
      (RiskService.compute cfg equity intended stop
          (MultiTimeframeRegimeService.combine (candles_by_tf.map
            (fun p => RegimeService.classify log sqrt cfg p.2))).final_volatility).position_size_usd := by
  simp only [DecisionService.check_trade]
  split_ifs <;> exact ⟨rfl, rfl⟩

/-- C4: the session multiplier is applied to the risk percentage only
after sizing: the returned position size equals equity times the capped
risk percentage over the floored stop distance (both as fractions), is
identical under any two sessions, while the returned risk percentage is
the capped risk percentage times the session multiplier. -/
theorem c4_session_multiplier_order (log sqrt : ℚ → ℚ) (cfg : Settings) (now : ℚ)
    (ds : DailyStat) (candles_by_tf : List (String × List ℚ)) (strategy : String)
    (equity intended stop : ℚ) (session session2 : SessionInfo) :
    (DecisionService.check_trade log sqrt cfg now ds candles_by_tf strategy
        equity intended stop session).position_size_usd =
      equity * ((if (MultiTimeframeRegimeService.combine (candles_by_tf.map
            (fun p => RegimeService.classify log sqrt cfg p.2))).final_volatility = "high"
          then min (min intended cfg.max_risk_per_trade_pct) (1/2)
          else min intended cfg.max_risk_per_trade_pct) / 100) / (max stop (1/20) / 100) ∧
    (DecisionService.check_trade log sqrt cfg now ds candles_by_tf strategy
        equity intended stop session).risk_pct =
      (if (MultiTimeframeRegimeService.combine (candles_by_tf.map
            (fun p => RegimeService.classify log sqrt cfg p.2))).final_volatility = "high"
          then min (min intended cfg.max_risk_per_trade_pct) (1/2)
          else min intended cfg.max_risk_per_trade_pct) * session.risk_multiplier ∧
    (DecisionService.check_trade log sqrt cfg now ds candles_by_tf strategy
        equity intended stop session).position_size_usd =
      (DecisionService.check_trade log sqrt cfg now ds candles_by_tf strategy
        equity intended stop session2).position_size_usd := by
  refine ⟨?_, ?_, ?_⟩
  · rw [(check_trade_risk_fields log sqrt cfg now ds candles_by_tf strategy
      equity intended stop session).2]
    rfl
  · rw [(check_trade_risk_fields log sqrt cfg now ds candles_by_tf strategy
      equity intended stop session).1]
    rfl
  · rw [(check_trade_risk_fields log sqrt cfg now ds candles_by_tf strategy
      equity intended stop session).2,
      (check_trade_risk_fields log sqrt cfg now ds candles_by_tf strategy
      equity intended stop session2).2]

/-- C6: whenever the behavior check refuses, the pipeline returns the full
Block record: quality 0, the risk and position still computed, reasons the
behavior reasons followed by the risk reasons, and the suggested actions
the behavior suggestions plus the switch-to-paper-review message. -/
theorem c6_behavior_block (log sqrt : ℚ → ℚ) (cfg : Settings) (now : ℚ)
    (ds : DailyStat) (candles_by_tf : List (String × List ℚ)) (strategy : String)
    (equity intended stop : ℚ) (session : SessionInfo)
    (hbeh : (BehaviorService.check cfg now ds).allowed = false) :
    DecisionService.check_trade log sqrt cfg now ds candles_by_tf strategy
        equity intended stop session =
      { decision := "BLOCK"
        quality_score := 0
        risk_pct := (RiskService.compute cfg equity intended stop
            (MultiTimeframeRegimeService.combine (candles_by_tf.map
              (fun p => RegimeService.classify log sqrt cfg p.2))).final_volatility).final_risk_pct *
          session.risk_multiplier
        position_size_usd := (RiskService.compute cfg equity intended stop
            (MultiTimeframeRegimeService.combine (candles_by_tf.map
              (fun p => RegimeService.classify log sqrt cfg p.2))).final_volatility).position_size_usd
        reasons := (BehaviorService.check cfg now ds).reasons ++
          (RiskService.compute cfg equity intended stop
            (MultiTimeframeRegimeService.combine (candles_by_tf.map
              (fun p => RegimeService.classify log sqrt cfg p.2))).final_volatility).reasons
        suggested_actions := (BehaviorService.check cfg now ds).suggested_actions ++
          ["Switch to paper review mode."]
        market_regime := (MultiTimeframeRegimeService.combine (candles_by_tf.map
          (fun p => RegimeService.classify log sqrt cfg p.2))).final_regime
        volatility_state := (MultiTimeframeRegimeService.combine (candles_by_tf.map
          (fun p => RegimeService.classify log sqrt cfg p.2))).final_volatility } := by
  simp only [DecisionService.check_trade]
  rw [if_pos hbeh]

/-- C6 witness: the theorem at a daily record already at the spec example
trade cap of 10, where the behavior check refuses. -/
theorem c6_behavior_block_witness :
    DecisionService.check_trade (fun _ => (0:ℚ)) (fun _ => (0:ℚ)) specSettings 0
        ⟨10, 5, 5, 0, 0, none⟩ [] "breakout" 10000 2 1 (SessionService.detect 3) =
      { decision := "BLOCK"
        quality_score := 0
        risk_pct := (RiskService.compute specSettings 10000 2 1
            (MultiTimeframeRegimeService.combine (([] : List (String × List ℚ)).map
              (fun p => RegimeService.classify (fun _ => (0:ℚ)) (fun _ => (0:ℚ))
                specSettings p.2))).final_volatility).final_risk_pct *
          (SessionService.detect 3).risk_multiplier
        position_size_usd := (RiskService.compute specSettings 10000 2 1
            (MultiTimeframeRegimeService.combine (([] : List (String × List ℚ)).map
              (fun p => RegimeService.classify (fun _ => (0:ℚ)) (fun _ => (0:ℚ))
                specSettings p.2))).final_volatility).position_size_usd
        reasons := (BehaviorService.check specSettings 0 ⟨10, 5, 5, 0, 0, none⟩).reasons ++
          (RiskService.compute specSettings 10000 2 1
            (MultiTimeframeRegimeService.combine (([] : List (String × List ℚ)).map
              (fun p => RegimeService.classify (fun _ => (0:ℚ)) (fun _ => (0:ℚ))
                specSettings p.2))).final_volatility).reasons
        suggested_actions :=
          (BehaviorService.check specSettings 0 ⟨10, 5, 5, 0, 0, none⟩).suggested_actions ++
          ["Switch to paper review mode."]
        market_regime := (MultiTimeframeRegimeService.combine
          (([] : List (String × List ℚ)).map
            (fun p => RegimeService.classify (fun _ => (0:ℚ)) (fun _ => (0:ℚ))
              specSettings p.2))).final_regime
        volatility_state := (MultiTimeframeRegimeService.combine
          (([] : List (String × List ℚ)).map
            (fun p => RegimeService.classify (fun _ => (0:ℚ)) (fun _ => (0:ℚ))
              specSettings p.2))).final_volatility } :=
  c6_behavior_block (fun _ => 0) (fun _ => 0) specSettings 0 ⟨10, 5, 5, 0, 0, none⟩
    [] "breakout" 10000 2 1 (SessionService.detect 3) (by decide)

/-- The aggregator only ever emits the lowercase labels trend or range, so
the uppercase RANGE tested by the fit scorer never occurs. -/
theorem combine_final_regime_ne (l : List RegimeResult) :
    (MultiTimeframeRegimeService.combine l).final_regime ≠ "RANGE" := by
  simp only [MultiTimeframeRegimeService.combine]
  split_ifs <;> decide

theorem combine_final_vol_cases (l : List RegimeResult) :
    (MultiTimeframeRegimeService.combine l).final_volatility = "high" ∨
    (MultiTimeframeRegimeService.combine l).final_volatility = "low" := by
  simp only [MultiTimeframeRegimeService.combine]
  split_ifs <;> simp

/-- Closed form of the fit scorer when the regime label is not the
uppercase RANGE: only the volatility deduction applies. -/
theorem strategy_fit_value (regime vol strategy : String) (hreg : regime ≠ "RANGE") :
    DecisionService.strategy_fit_score regime vol strategy =
      ((if vol = "high" then 85/100 else if vol = "low" then 9/10 else 1),
        (if vol = "high" then ["High volatility increases false signals."] else []) ++
          (if vol = "low" then ["Low volatility reduces momentum follow-through."] else [])) := by
  simp only [DecisionService.strategy_fit_score]
  have hA : ¬ (pyLower strategy = "breakout" ∧ regime = "RANGE") := fun h => hreg h.2
  simp only [if_neg hA]
  split_ifs with h1 h2
  · exact absurd (h1.symm.trans h2) (by decide)
  · rw [max_eq_left (by norm_num)]; norm_num
  · rw [max_eq_left (by norm_num)]; norm_num
  · rw [max_eq_left (by norm_num)]; norm_num

/-- C3: whenever the behavior check allows trading, the pipeline quality
score is exactly 0.85 under high consensus volatility and 0.90 otherwise
(the breakout deduction compares against the uppercase RANGE the
aggregator never emits), so the score is at least 0.85 and the decision is
ALLOW: the WARN downgrade and both quality-score Block branches are
unreachable. -/
theorem c3_allowed_quality_floor (log sqrt : ℚ → ℚ) (cfg : Settings) (now : ℚ)
    (ds : DailyStat) (candles_by_tf : List (String × List ℚ)) (strategy : String)
    (equity intended stop : ℚ) (session : SessionInfo)
    (hbeh : (BehaviorService.check cfg now ds).allowed = true) :
    (DecisionService.check_trade log sqrt cfg now ds candles_by_tf strategy
        equity intended stop session).decision = "ALLOW" ∧
    (85/100 : ℚ) ≤ (DecisionService.check_trade log sqrt cfg now ds candles_by_tf strategy
        equity intended stop session).quality_score ∧
    (DecisionService.check_trade log sqrt cfg now ds candles_by_tf strategy
        equity intended stop session).quality_score =
      (if (MultiTimeframeRegimeService.combine (candles_by_tf.map
          (fun p => RegimeService.classify log sqrt cfg p.2))).final_volatility = "high"
        then 85/100 else 9/10) := by
  have hne := combine_final_regime_ne (candles_by_tf.map
    (fun p => RegimeService.classify log sqrt cfg p.2))
  have hvols := combine_final_vol_cases (candles_by_tf.map
    (fun p => RegimeService.classify log sqrt cfg p.2))
  simp only [DecisionService.check_trade]
  rw [if_neg (by simp [hbeh])]
  set M := MultiTimeframeRegimeService.combine (candles_by_tf.map
    (fun p => RegimeService.classify log sqrt cfg p.2)) with hM
  have hfit := strategy_fit_value M.final_regime M.final_volatility strategy hne
  rw [hfit]
  rcases hvols with hv | hv <;> rw [hv] <;> simp <;> norm_num

/-- C3 witness: the theorem at the fresh daily record (behavior allows)
under the spec example configuration. -/
theorem c3_allowed_quality_floor_witness :
    (DecisionService.check_trade (fun _ => (0:ℚ)) (fun _ => (0:ℚ)) specSettings 0 newDailyStat
        [] "breakout" 10000 2 1 (SessionService.detect 3)).decision = "ALLOW" ∧
    (85/100 : ℚ) ≤ (DecisionService.check_trade (fun _ => (0:ℚ)) (fun _ => (0:ℚ)) specSettings 0
        newDailyStat [] "breakout" 10000 2 1 (SessionService.detect 3)).quality_score ∧
    (DecisionService.check_trade (fun _ => (0:ℚ)) (fun _ => (0:ℚ)) specSettings 0 newDailyStat
        [] "breakout" 10000 2 1 (SessionService.detect 3)).quality_score =
      (if (MultiTimeframeRegimeService.combine (([] : List (String × List ℚ)).map
          (fun p => RegimeService.classify (fun _ => (0:ℚ)) (fun _ => (0:ℚ))
            specSettings p.2))).final_volatility = "high"
        then 85/100 else 9/10) :=
  c3_allowed_quality_floor (fun _ => 0) (fun _ => 0) specSettings 0 newDailyStat
    [] "breakout" 10000 2 1 (SessionService.detect 3) (by decide)

theorem clip_unit_bounds (x : ℚ) : 0 ≤ clip x 0 1 ∧ clip x 0 1 ≤ 1 :=
  ⟨le_max_left _ _, max_le (by norm_num) (min_le_right _ _)⟩

theorem combine_confidence_bounds (l : List RegimeResult) :
    0 ≤ (MultiTimeframeRegimeService.combine l).confidence ∧
    (MultiTimeframeRegimeService.combine l).confidence ≤ 1 := by
  simp only [MultiTimeframeRegimeService.combine]
  exact clip_unit_bounds _

theorem strategy_fit_score_bounds (regime vol strategy : String) :
    0 ≤ (DecisionService.strategy_fit_score regime vol strategy).1 ∧
    (DecisionService.strategy_fit_score regime vol strategy).1 ≤ 1 := by
  simp only [DecisionService.strategy_fit_score]
  refine ⟨le_max_right _ _, max_le ?_ (by norm_num)⟩
  split_ifs <;> norm_num

/-- The quality score returned by check_trade is either the hard 0 of a
behavior block or the fit scorer output. -/
theorem check_trade_quality_cases (log sqrt : ℚ → ℚ) (cfg : Settings) (now : ℚ)
    (ds : DailyStat) (candles_by_tf : List (String × List ℚ)) (strategy : String)
    (equity intended stop : ℚ) (session : SessionInfo) :
    (DecisionService.check_trade log sqrt cfg now ds candles_by_tf strategy
        equity intended stop session).quality_score = 0 ∨
    (DecisionService.check_trade log sqrt cfg now ds candles_by_tf strategy
        equity intended stop session).quality_score =
      (DecisionService.strategy_fit_score
        (MultiTimeframeRegimeService.combine (candles_by_tf.map
          (fun p => RegimeService.classify log sqrt cfg p.2))).final_regime
        (MultiTimeframeRegimeService.combine (candles_by_tf.map
          (fun p => RegimeService.classify log sqrt cfg p.2))).final_volatility strategy).1 := by
  simp only [DecisionService.check_trade]
  split_ifs <;> first | exact Or.inl rfl | exact Or.inr rfl

theorem compute_nonneg (cfg : Settings) (equity intended stop : ℚ) (vol : String)
    (he : 0 ≤ equity) (hi : 0 ≤ intended) (hm : 0 ≤ cfg.max_risk_per_trade_pct) :
    0 ≤ (RiskService.compute cfg equity intended stop vol).final_risk_pct ∧
    0 ≤ (RiskService.compute cfg equity intended stop vol).position_size_usd := by
  simp only [RiskService.compute]
  have hr : 0 ≤ (if vol = "high" then min (min intended cfg.max_risk_per_trade_pct) (1/2)
      else min intended cfg.max_risk_per_trade_pct) := by
    split_ifs
    · exact le_min (le_min hi hm) (by norm_num)
    · exact le_min hi hm
  refine ⟨hr, ?_⟩
  apply div_nonneg (mul_nonneg he (div_nonneg hr (by norm_num)))
  exact div_nonneg (le_of_lt (lt_max_of_lt_right (by norm_num))) (by norm_num)

/-- C9: for valid inputs the pipeline outputs stay in range: quality score
in the unit interval, aggregator confidence in the unit interval, and
nonnegative risk percentage and position size. -/
theorem c9_output_ranges (log sqrt : ℚ → ℚ) (cfg : Settings) (now : ℚ)
    (ds : DailyStat) (candles_by_tf : List (String × List ℚ)) (strategy : String)
    (equity intended stop : ℚ) (session : SessionInfo)
    (he : 0 < equity) (hi : 0 < intended) (hs : 0 < stop)
    (hm : 0 ≤ cfg.max_risk_per_trade_pct) (hmult : 0 ≤ session.risk_multiplier)
    (htf : candles_by_tf ≠ []) :
    0 ≤ (DecisionService.check_trade log sqrt cfg now ds candles_by_tf strategy
        equity intended stop session).quality_score ∧
    (DecisionService.check_trade log sqrt cfg now ds candles_by_tf strategy
        equity intended stop session).quality_score ≤ 1 ∧
    0 ≤ (MultiTimeframeRegimeService.combine (candles_by_tf.map
        (fun p => RegimeService.classify log sqrt cfg p.2))).confidence ∧
    (MultiTimeframeRegimeService.combine (candles_by_tf.map
        (fun p => RegimeService.classify log sqrt cfg p.2))).confidence ≤ 1 ∧
    0 ≤ (DecisionService.check_trade log sqrt cfg now ds candles_by_tf strategy
        equity intended stop session).risk_pct ∧
    0 ≤ (DecisionService.check_trade log sqrt cfg now ds candles_by_tf strategy
        equity intended stop session).position_size_usd := by
  refine ⟨?_, ?_, (combine_confidence_bounds _).1, (combine_confidence_bounds _).2, ?_, ?_⟩
  · rcases check_trade_quality_cases log sqrt cfg now ds candles_by_tf strategy
      equity intended stop session with h | h <;> rw [h]
    exact (strategy_fit_score_bounds _ _ _).1
  · rcases check_trade_quality_cases log sqrt cfg now ds candles_by_tf strategy
      equity intended stop session with h | h <;> rw [h]
    · norm_num
    · exact (strategy_fit_score_bounds _ _ _).2
  · rw [(check_trade_risk_fields log sqrt cfg now ds candles_by_tf strategy
      equity intended stop session).1]
    exact mul_nonneg (compute_nonneg cfg equity intended stop _ he.le hi.le hm).1 hmult
  · rw [(check_trade_risk_fields log sqrt cfg now ds candles_by_tf strategy
      equity intended stop session).2]
    exact (compute_nonneg cfg equity intended stop _ he.le hi.le hm).2

/-- C9 witness: the theorem at the spec example scenario with one
timeframe of three flat candles during the Asia session. -/
theorem c9_output_ranges_witness :
    0 ≤ (DecisionService.check_trade (fun _ => (0:ℚ)) (fun _ => (0:ℚ)) specSettings 0 newDailyStat
        [("1h", [1, 1, 1])] "breakout" 10000 2 1 (SessionService.detect 3)).quality_score ∧
    (DecisionService.check_trade (fun _ => (0:ℚ)) (fun _ => (0:ℚ)) specSettings 0 newDailyStat
        [("1h", [1, 1, 1])] "breakout" 10000 2 1 (SessionService.detect 3)).quality_score ≤ 1 ∧
    0 ≤ (MultiTimeframeRegimeService.combine ((([("1h", [1, 1, 1])]) : List (String × List ℚ)).map
        (fun p => RegimeService.classify (fun _ => (0:ℚ)) (fun _ => (0:ℚ))
          specSettings p.2))).confidence ∧
    (MultiTimeframeRegimeService.combine ((([("1h", [1, 1, 1])]) : List (String × List ℚ)).map
        (fun p => RegimeService.classify (fun _ => (0:ℚ)) (fun _ => (0:ℚ))
          specSettings p.2))).confidence ≤ 1 ∧
    0 ≤ (DecisionService.check_trade (fun _ => (0:ℚ)) (fun _ => (0:ℚ)) specSettings 0 newDailyStat
        [("1h", [1, 1, 1])] "breakout" 10000 2 1 (SessionService.detect 3)).risk_pct ∧
    0 ≤ (DecisionService.check_trade (fun _ => (0:ℚ)) (fun _ => (0:ℚ)) specSettings 0 newDailyStat
        [("1h", [1, 1, 1])] "breakout" 10000 2 1 (SessionService.detect 3)).position_size_usd :=
  c9_output_ranges (fun _ => 0) (fun _ => 0) specSettings 0 newDailyStat
    [("1h", [1, 1, 1])] "breakout" 10000 2 1 (SessionService.detect 3)
    (by norm_num) (by norm_num) (by norm_num) (by norm_num [specSettings])
    (by norm_num [SessionService.detect]) (by simp)
